import Mathlib

/-!
Verification of the stochastic-optimization core of `viabel`
(`viabel/optimizing_classes.py`) against its design specification.

Modelling conventions:
* Python floats are modelled by exact rationals `ℚ`; machine rounding is
  out of scope.
* `numpy` arrays of shape `(d,)` are modelled as functions `Fin d → ℚ`.
* The external numerical library routines `np.sqrt` and
  `scipy.stats.t.ppf` are not repository code; they are abstracted as
  explicit function arguments (`sq : ℚ → ℚ` and `tppf : ℚ → ℤ → ℚ`).
  Likewise `MFGaussian._kl` lives in `viabel/approximations.py`, outside
  the audited sources, and per the specification it is only a capability
  interface `kl(param_a, param_b) -> scalar`; it is abstracted as
  `kl : Vec d → Vec d → ℚ`.
* Python exceptions are modelled with `Except PyErr`.
* A Python local variable that may be unbound (`SKL`) is modelled as an
  `Option`, with `none` meaning "not yet assigned"; reading it while
  `none` is a `NameError`.
* `list.append(arr)` on a numpy array stores a *reference*; the array
  `variational_param` is subsequently mutated in place by `-=`.  The
  embedding therefore keeps, for the history of parameter vectors, the
  number of stored references (`vph_len`) — reading the list later
  yields that many copies of the *current* array value — together with a
  ghost trace `vph_snapshots` recording the value the array had at the
  moment of each append (the "snapshot" the specification speaks of).
-/

namespace Viabel

/-- A numpy array of shape `(d,)`, holding rationals in place of floats. -/
abbrev Vec (d : ℕ) := Fin d → ℚ

/-- `np.mean` of a list of scalars (division by zero yields `0` in `ℚ`;
all uses in theorems are on nonempty lists). -/
def listMean (xs : List ℚ) : ℚ := xs.sum / xs.length

/-- `np.mean(rows, axis=0)` for a list of equal-length vectors. -/
def vecMean {d : ℕ} (rows : List (Vec d)) : Vec d :=
  fun i => listMean (rows.map (fun r => r i))

/-- Python slice `xs[-w:]`.  For `w > 0` this is the last `w` elements
(or all of them when `w > len`); for `w = 0` the slice `xs[-0:]` is
`xs[0:]`, i.e. the whole list. -/
def pySliceLast {α : Type} (xs : List α) (w : ℕ) : List α :=
  if w = 0 then xs else xs.drop (xs.length - w)

/-- The Python exceptions the embedded code can raise. -/
inductive PyErr : Type where
  | attributeError (name : String)
  | nameError (name : String)
  | valueError (msg : String)
  | zeroDivisionError
deriving DecidableEq

/-- The concrete subclasses of `StochasticGradientOptimizer`, as a tagged
union carrying exactly the attributes their `__init__` methods store:
`RMSProp.__init__` stores `_beta`, `_jitter` and (via `super`)
`_learning_rate`; `AdaGrad.__init__` stores `_jitter` and
`_learning_rate`. -/
inductive SGO : Type where
  | rmsprop (learning_rate beta jitter : ℚ)
  | adagrad (learning_rate jitter : ℚ)
deriving DecidableEq

/-- The attribute `self._learning_rate` set by
`StochasticGradientOptimizer.__init__`. -/
def SGO._learning_rate : SGO → ℚ
  | .rmsprop lr _ _ => lr
  | .adagrad lr _ => lr

/-- The instance attribute dictionary populated by `__init__` (all stored
attributes are numeric).  Neither the instances nor any class in the
hierarchy define an attribute named `learning_rate`. -/
def SGO.instanceDict : SGO → List (String × ℚ)
  | .rmsprop lr beta jitter =>
      [("_beta", beta), ("_jitter", jitter), ("_learning_rate", lr)]
  | .adagrad lr jitter =>
      [("_jitter", jitter), ("_learning_rate", lr)]

/-- Python attribute lookup on an optimizer instance: a hit in the
instance dictionary returns the value, a miss raises `AttributeError`
(the classes define only methods, no data attributes). -/
def SGO.getattr (o : SGO) (a : String) : Except PyErr ℚ :=
  match o.instanceDict.lookup a with
  | some v => Except.ok v
  | none => Except.error (PyErr.attributeError a)

/-- `RMSProp.descent_direction` / `AdaGrad.descent_direction`
(lines 99–104 and 115–120 of `optimizing_classes.py`), element-wise over
the gradient.  `sq` abstracts `np.sqrt`.  Returns
`(descent_dir, history)`. -/
def SGO.descent_direction {d : ℕ} (o : SGO) (sq : ℚ → ℚ) (grad : Vec d)
    (history : Option (Vec d)) : Vec d × Vec d :=
  match o with
  | .rmsprop _ beta jitter =>
      let h0 : Vec d := match history with
        | none => fun i => (grad i) ^ 2
        | some h => h
      let h1 : Vec d := fun i => h0 i * beta + (1 - beta) * (grad i) ^ 2
      (fun i => grad i / sq (jitter + h1 i), h1)
  | .adagrad _ jitter =>
      let h0 : Vec d := match history with
        | none => fun i => (grad i) ^ 2
        | some h => h
      let h1 : Vec d := fun i => h0 i + (grad i) ^ 2
      (fun i => grad i / sq (jitter + h1 i), h1)

/-- Loop state of `StochasticGradientOptimizer.optimize`.
`vph_len` counts the references appended to `variational_param_history`
(each aliases the in-place-mutated `variational_param` array);
`vph_snapshots` is the ghost trace of the value that array had at each
append. -/
structure SGORunState (d : ℕ) : Type where
  variational_param : Vec d
  history : Option (Vec d)
  value_history : List ℚ
  vph_len : ℕ
  vph_snapshots : List (Vec d)
deriving DecidableEq

/-- One iteration of the loop body of
`StochasticGradientOptimizer.optimize` (lines 54–60). -/
def SGO.optimizeStep {d : ℕ} (o : SGO) (sq : ℚ → ℚ)
    (objective : Vec d → ℚ × Vec d) (s : SGORunState d) : SGORunState d :=
  let object_val := (objective s.variational_param).1
  let object_grad := (objective s.variational_param).2
  let dd := o.descent_direction sq object_grad s.history
  let variational_param : Vec d :=
    fun i => s.variational_param i - o._learning_rate * dd.1 i
  { variational_param := variational_param
    history := some dd.2
    value_history := s.value_history ++ [object_val]
    vph_len := s.vph_len + 1
    vph_snapshots := s.vph_snapshots ++ [variational_param] }

/-- The loop of `StochasticGradientOptimizer.optimize`, run for
`n_iters` iterations. -/
def SGO.optimizeLoop {d : ℕ} (o : SGO) (sq : ℚ → ℚ)
    (objective : Vec d → ℚ × Vec d) (n_iters : ℕ) (s : SGORunState d) :
    SGORunState d :=
  match n_iters with
  | 0 => s
  | n + 1 => o.optimizeLoop sq objective n (o.optimizeStep sq objective s)

/-- `smoothing_window = int(n_iters * smoothed_prop)` (line 49);
`int()` truncation coincides with the floor for the nonnegative products
arising from `smoothed_prop ∈ (0, 1]`. -/
def smoothing_window (n_iters : ℕ) (smoothed_prop : ℚ) : ℕ :=
  (⌊(n_iters : ℚ) * smoothed_prop⌋).toNat

/-- The dictionary returned by `StochasticGradientOptimizer.optimize`,
plus the ghost snapshot trace. -/
structure OptimizeResult (d : ℕ) : Type where
  smoothed_opt_param : Vec d
  variational_param_history : List (Vec d)
  value_history : List ℚ
  vph_snapshots : List (Vec d)
deriving DecidableEq

/-- `StochasticGradientOptimizer.optimize` (lines 47–66).  After the
loop, `np.array(variational_param_history)` reads every stored
reference, so all rows equal the final parameter value; the last
`smoothing_window` rows (Python slice `[-w:]`) are then averaged. -/
def SGO.optimize {d : ℕ} (o : SGO) (sq : ℚ → ℚ) (n_iters : ℕ)
    (objective : Vec d → ℚ × Vec d) (init_param : Vec d)
    (smoothed_prop : ℚ) : OptimizeResult d :=
  let s0 : SGORunState d :=
    { variational_param := init_param, history := none,
      value_history := [], vph_len := 0, vph_snapshots := [] }
  let s := o.optimizeLoop sq objective n_iters s0
  let rows : List (Vec d) := List.replicate s.vph_len s.variational_param
  let latter := pySliceLast rows (smoothing_window n_iters smoothed_prop)
  { smoothed_opt_param := vecMean latter
    variational_param_history := rows
    value_history := s.value_history
    vph_snapshots := s.vph_snapshots }

/-- `SASA.convergence_check` (lines 153–179).  `sq` abstracts `np.sqrt`
on rationals and `tppf q df` abstracts `scipy.stats.t.ppf(q, df)`.
`np.floor(np.sqrt(W)).astype(int)` is `Nat.sqrt` on the nonnegative part
of `W`.  `np.reshape` raises `ValueError` when the slice does not hold
exactly `m*b` elements.  In the degenerate case `b = 1` the divisor
`b - 1` is zero: numpy emits `inf`/`nan` and the final comparisons on
`nan` are false, while in `ℚ` division by zero yields `0`; both
semantics make the function return `false` on the inputs considered
here. -/
def convergence_check (sq : ℚ → ℚ) (tppf : ℚ → ℤ → ℚ) (delta : ℚ)
    (W : ℤ) (Delta_history : List ℚ) : Except PyErr Bool :=
  let b : ℕ := Nat.sqrt W.toNat
  let m : ℕ := b
  let window := pySliceLast Delta_history (m * b)
  if window.length = m * b then
    let mu_n := listMean window
    let batch_means :=
      (List.range m).map (fun i => listMean ((window.drop (i * b)).take b))
    let sigma_n := sq (((m : ℚ) / ((b : ℚ) - 1)) *
      ((batch_means.map (fun x => (x - mu_n) ^ 2)).sum))
    let sd_error := tppf (1 - delta / 2) ((b : ℤ) - 1) *
      (sigma_n / sq ((m : ℚ) * (b : ℚ)))
    let lower := mu_n - sd_error
    let upper := mu_n + sd_error
    if lower < 0 ∧ upper > 0 then Except.ok true else Except.ok false
  else
    Except.error (PyErr.valueError "cannot reshape")

/-- The SASA controller's configuration, as stored by `SASA.__init__`
(lines 142–151) once the `isinstance` validation has passed. -/
structure SASA : Type where
  sgo : SGO
  theta : ℚ
  rho : ℚ
  W0 : ℤ
  t_check : ℕ
  delta : ℚ
  eps : ℚ
deriving DecidableEq

/-- The argument passed to `SASA.__init__` as `sgo`: either an instance
of (a concrete subclass of) `StochasticGradientOptimizer`, or any other
Python object, which `isinstance` rejects. -/
inductive SGOArg : Type where
  | sgoVal (o : SGO)
  | nonSGO
deriving DecidableEq

/-- `SASA.__init__` (lines 142–151): raises `ValueError` when `sgo` is
not a `StochasticGradientOptimizer`, otherwise stores the
configuration. -/
def SASA.init (sgo : SGOArg) (theta rho : ℚ) (W0 : ℤ) (t_check : ℕ)
    (delta eps : ℚ) : Except PyErr SASA :=
  match sgo with
  | .nonSGO =>
      Except.error
        (PyErr.valueError "sgo must be a subclass of StochasticGradientOptimizer")
  | .sgoVal o =>
      Except.ok { sgo := o, theta := theta, rho := rho, W0 := W0,
                  t_check := t_check, delta := delta, eps := eps }

/-- Loop state of `SASA.convergence_test`.  `SKL` is a Python local that
is unbound (`none`) until the first stationarity-triggered reduction
assigns it.  As in `SGORunState`, `vph_len` counts the aliased
references held by `variational_param_history` and `vph_snapshots` is
the ghost trace of append-time values. -/
structure SASAState (d : ℕ) : Type where
  t0 : ℕ
  history : Option (Vec d)
  learning_rate : ℚ
  variational_param : Vec d
  variational_param_mean : Vec d
  value_history : List ℚ
  Delta_history : List ℚ
  vph_len : ℕ
  vph_snapshots : List (Vec d)
  SKL : Option ℚ
deriving DecidableEq

/-- Outcome of one loop iteration of `SASA.convergence_test` that did
not raise: either continue with the next iteration, or `break` out via
the stopping rule. -/
inductive StepOut (d : ℕ) : Type where
  | next (s : SASAState d)
  | stop (s : SASAState d)
deriving DecidableEq

/-- The state an iteration outcome carries. -/
def StepOut.state {d : ℕ} : StepOut d → SASAState d
  | .next s => s
  | .stop s => s

/-- `W = np.max([np.min([t-t0, W0]), np.ceil(theta*(t-t0)).astype(int)])`
(line 221). -/
def SASA.window (c : SASA) (t t0 : ℕ) : ℤ :=
  max (min ((t : ℤ) - (t0 : ℤ)) c.W0) ⌈c.theta * (((t : ℤ) - (t0 : ℤ) : ℤ) : ℚ)⌉

/-- The `(descent_dir, history)` pair computed at line 216. -/
def SASA.stepDescent {d : ℕ} (c : SASA) (sq : ℚ → ℚ)
    (objective : Vec d → ℚ × Vec d) (s : SASAState d) : Vec d × Vec d :=
  c.sgo.descent_direction sq (objective s.variational_param).2 s.history

/-- The in-place update `variational_param -= learning_rate * descent_dir`
(line 217). -/
def SASA.stepParam {d : ℕ} (c : SASA) (sq : ℚ → ℚ)
    (objective : Vec d → ℚ × Vec d) (s : SASAState d) : Vec d :=
  fun i =>
    s.variational_param i - s.learning_rate * (c.stepDescent sq objective s).1 i

/-- `Delta = np.dot(variational_param, descent_dir)
- 0.5*learning_rate*np.sum(descent_dir**2)` (line 219), computed with
the already-updated parameter and the pre-reduction learning rate. -/
def SASA.stepDelta {d : ℕ} (c : SASA) (sq : ℚ → ℚ)
    (objective : Vec d → ℚ × Vec d) (s : SASAState d) : ℚ :=
  (∑ i, c.stepParam sq objective s i * (c.stepDescent sq objective s).1 i) -
    (1 / 2) * s.learning_rate * ∑ i, ((c.stepDescent sq objective s).1 i) ^ 2

/-- `Delta_history` after this iteration's append (line 220). -/
def SASA.stepDeltaHist {d : ℕ} (c : SASA) (sq : ℚ → ℚ)
    (objective : Vec d → ℚ × Vec d) (s : SASAState d) : List ℚ :=
  s.Delta_history ++ [c.stepDelta sq objective s]

/-- Lines 221–229 of iteration `t`: the window computation and the
conditional reduction block, yielding the `(learning_rate,
variational_param_mean, t0, SKL)` quadruple in force after the block.
The block runs only when `W >= W0` and `t % t_check == 0`; on detected
stationarity the learning rate is multiplied by `rho`, the reference
mean is recomputed over the last `m*b` history entries — references to
the array just updated in place, each reading as the current parameter
value — `t0` is reset and `SKL` assigned. -/
def SASA.stepReduction {d : ℕ} (c : SASA) (sq : ℚ → ℚ) (tppf : ℚ → ℤ → ℚ)
    (kl : Vec d → Vec d → ℚ) (objective : Vec d → ℚ × Vec d) (t : ℕ)
    (s : SASAState d) : Except PyErr (ℚ × Vec d × ℕ × Option ℚ) :=
  let W := c.window t s.t0
  if c.W0 ≤ W then
    if c.t_check = 0 then Except.error PyErr.zeroDivisionError
    else if t % c.t_check = 0 then
      match convergence_check sq tppf c.delta W (c.stepDeltaHist sq objective s) with
      | Except.error e => Except.error e
      | Except.ok convg =>
        if convg then
          let b := Nat.sqrt W.toNat
          let m := b
          let learning_rate := c.rho * s.learning_rate
          let variational_param_mean := vecMean (pySliceLast
            (List.replicate (s.vph_len + 1) (c.stepParam sq objective s)) (m * b))
          let SKL := kl s.variational_param_mean variational_param_mean +
            kl variational_param_mean s.variational_param_mean
          Except.ok (learning_rate, variational_param_mean, t, some SKL)
        else Except.ok (s.learning_rate, s.variational_param_mean, s.t0, s.SKL)
    else Except.ok (s.learning_rate, s.variational_param_mean, s.t0, s.SKL)
  else Except.ok (s.learning_rate, s.variational_param_mean, s.t0, s.SKL)

/-- One iteration `t` of the loop of `SASA.convergence_test`
(lines 213–233): the gradient/value call, the parameter update and the
appends, then the conditional reduction block, and finally the stopping
rule `SKL / rho < eps` (line 231), which is evaluated unconditionally
and raises `NameError` when the local `SKL` has never been assigned. -/
def SASA.step {d : ℕ} (c : SASA) (sq : ℚ → ℚ) (tppf : ℚ → ℤ → ℚ)
    (kl : Vec d → Vec d → ℚ) (objective : Vec d → ℚ × Vec d) (t : ℕ)
    (s : SASAState d) : Except PyErr (StepOut d) :=
  match c.stepReduction sq tppf kl objective t s with
  | Except.error e => Except.error e
  | Except.ok (lr, vpm, t0N, sklOpt) =>
    let sN : SASAState d :=
      { t0 := t0N, history := some (c.stepDescent sq objective s).2,
        learning_rate := lr,
        variational_param := c.stepParam sq objective s,
        variational_param_mean := vpm,
        value_history := s.value_history ++ [(objective s.variational_param).1],
        Delta_history := c.stepDeltaHist sq objective s,
        vph_len := s.vph_len + 1,
        vph_snapshots := s.vph_snapshots ++ [c.stepParam sq objective s],
        SKL := sklOpt }
    match sklOpt with
    | none => Except.error (PyErr.nameError "SKL")
    | some skl =>
      if skl / c.rho < c.eps then Except.ok (StepOut.stop sN)
      else Except.ok (StepOut.next sN)

/-- The loop `for t in tqdm.trange(n_iters)` of `SASA.convergence_test`,
iterating `SASA.step` from iteration index `t` for `remaining` more
iterations, propagating exceptions and honouring the `break` of the
stopping rule. -/
def SASA.loopAux {d : ℕ} (c : SASA) (sq : ℚ → ℚ) (tppf : ℚ → ℤ → ℚ)
    (kl : Vec d → Vec d → ℚ) (objective : Vec d → ℚ × Vec d)
    (remaining t : ℕ) (s : SASAState d) : Except PyErr (SASAState d) :=
  match remaining with
  | 0 => Except.ok s
  | r + 1 =>
    match c.step sq tppf kl objective t s with
    | Except.error e => Except.error e
    | Except.ok (StepOut.stop sN) => Except.ok sN
    | Except.ok (StepOut.next sN) => c.loopAux sq tppf kl objective r (t + 1) sN

/-- The loop of `SASA.convergence_test` (lines 205–233 with the learning
rate already read): initial state from lines 205–212, then `n_iters`
iterations. -/
def SASA.loopRun {d : ℕ} (c : SASA) (sq : ℚ → ℚ) (tppf : ℚ → ℤ → ℚ)
    (kl : Vec d → Vec d → ℚ) (learning_rate : ℚ) (n_iters : ℕ)
    (objective : Vec d → ℚ × Vec d) (init_param : Vec d) :
    Except PyErr (SASAState d) :=
  c.loopAux sq tppf kl objective n_iters 0
    { t0 := 0, history := none, learning_rate := learning_rate,
      variational_param := init_param, variational_param_mean := init_param,
      value_history := [], Delta_history := [], vph_len := 0,
      vph_snapshots := [], SKL := none }

/-- The dictionary returned by `SASA.convergence_test` (lines 234–236);
the returned `variational_param_history` is the list of references, each
reading as the final parameter value. -/
structure SASAResult (d : ℕ) : Type where
  smoothed_opt_param : Vec d
  variational_param_history : List (Vec d)
  value_history : List ℚ
deriving DecidableEq

/-- `SASA.convergence_test` (lines 182–236).  Line 207 reads the
attribute `learning_rate` on the wrapped optimizer before anything else
runs. -/
def SASA.convergence_test {d : ℕ} (c : SASA) (sq : ℚ → ℚ)
    (tppf : ℚ → ℤ → ℚ) (kl : Vec d → Vec d → ℚ) (n_iters : ℕ)
    (objective : Vec d → ℚ × Vec d) (init_param : Vec d) :
    Except PyErr (SASAResult d) :=
  match c.sgo.getattr "learning_rate" with
  | Except.error e => Except.error e
  | Except.ok learning_rate =>
    match c.loopRun sq tppf kl learning_rate n_iters objective init_param with
    | Except.error e => Except.error e
    | Except.ok s =>
      Except.ok
        { smoothed_opt_param := s.variational_param_mean,
          variational_param_history := List.replicate s.vph_len s.variational_param,
          value_history := s.value_history }

/-- Identity on `ℚ`, used to instantiate the abstract `np.sqrt` argument
in concrete runs; it agrees with the real square root at `0` and `1`,
the only arguments those runs evaluate it at. -/
def idQ : ℚ → ℚ := fun q => q

/-- Constant-zero stand-in for `scipy.stats.t.ppf` in concrete runs that
never use its value. -/
def zeroTppf : ℚ → ℤ → ℚ := fun _ _ => 0

/-- Constant-zero stand-in for the divergence capability
`MFGaussian._kl` in concrete runs that never call it. -/
def zeroKl : Vec 1 → Vec 1 → ℚ := fun _ _ => 0

/-- A one-dimensional objective with value `0` and gradient constantly
`1`, used for concrete runs. -/
def constGradObjective : Vec 1 → ℚ × Vec 1 := fun _ => (0, fun _ => 1)

/-- The zero initial parameter in one dimension. -/
def zeroInit : Vec 1 := fun _ => 0

/-- `RMSProp(learning_rate=1, beta=0.9, jitter=0)`: the concrete
strategy of the counterexample runs (jitter `0` keeps the square-root
arguments at `1`). -/
def rmspropUnit : SGO := SGO.rmsprop 1 (9 / 10) 0

/-- `SASA(RMSProp(0.01, beta=0.9, jitter=0), theta=2, rho=1/2)` with the
default `W0=1000`, `t_check=100`, `delta=0.05`, `eps=1e-3`. -/
def sasaDefault : SASA :=
  { sgo := SGO.rmsprop (1 / 100) (9 / 10) 0, theta := 2, rho := 1 / 2,
    W0 := 1000, t_check := 100, delta := 1 / 20, eps := 1 / 1000 }

/-- The accumulator value the specification's update laws start from:
the supplied accumulator, taken as `grad^2` on the first call. -/
def specAcc {d : ℕ} (grad : Vec d) (acc : Option (Vec d)) : Vec d :=
  acc.getD (fun i => (grad i) ^ 2)

/-- The stationarity decision exactly as the claim/specification words
it: split the last `m*b` (`m = b = floor(sqrt W)`) Delta values into `m`
contiguous batches of size `b`; compute the grand mean `mu_n`, the batch
means, and `sigma_n^2 = (m/(b-1)) * sum((batch_mean - mu_n)^2)`; form
the Student-t interval `mu_n ± t_{1-delta/2, b-1} * sigma_n / sqrt(m*b)`;
hold exactly when zero lies strictly inside that interval. -/
def stationaritySpec (sq : ℚ → ℚ) (tppf : ℚ → ℤ → ℚ) (delta : ℚ)
    (W : ℤ) (Delta_history : List ℚ) : Prop :=
  let b : ℕ := Nat.sqrt W.toNat
  let m : ℕ := b
  let lastWindow := Delta_history.drop (Delta_history.length - m * b)
  let mu_n := listMean lastWindow
  let batch_mean : ℕ → ℚ := fun j => listMean ((lastWindow.drop (j * b)).take b)
  let sigma_n := sq (((m : ℚ) / ((b : ℚ) - 1)) *
    ((List.range m).map (fun j => (batch_mean j - mu_n) ^ 2)).sum)
  let radius := tppf (1 - delta / 2) ((b : ℤ) - 1) *
    (sigma_n / sq ((m : ℚ) * (b : ℚ)))
  mu_n - radius < 0 ∧ 0 < mu_n + radius

/-- The per-call `(direction, accumulator)` trace of a descent-direction
strategy along a sequence of gradients, threading each returned
accumulator into the next call, starting from the given (possibly
uninitialized) accumulator state. -/
def SGO.callTrace {d : ℕ} (o : SGO) (sq : ℚ → ℚ) :
    List (Vec d) → Option (Vec d) → List (Vec d × Vec d)
  | [], _ => []
  | g :: gs, h =>
    let p := o.descent_direction sq g h
    p :: o.callTrace sq gs (some p.2)

/-- A loop state of `SASA.convergence_test` in which one reduction has
already assigned `SKL` (so one successful step can be exhibited). -/
def c6State : SASAState 1 :=
  { t0 := 0, history := none, learning_rate := 1, variational_param := zeroInit,
    variational_param_mean := zeroInit, value_history := [], Delta_history := [],
    vph_len := 0, vph_snapshots := [], SKL := some 1 }

/-- The state `SASA.step` produces from `c6State` at iteration `0` under
`sasaDefault` with the constant-gradient objective. -/
def c6StateAfter : SASAState 1 :=
  { t0 := 0, history := some (fun _ => 1), learning_rate := 1,
    variational_param := fun _ => -1, variational_param_mean := zeroInit,
    value_history := [0], Delta_history := [-(3 / 2)], vph_len := 1,
    vph_snapshots := [fun _ => -1], SKL := some 1 }

/-- Claim C1 (refuting evidence).  The claim states that before the
first stationarity-triggered reduction the stopping-rule check treats
the run as not yet converged and the loop neither fails nor exits early.
In fact the check `SKL / rho < eps` at line 231 runs on every iteration,
and before any reduction the local `SKL` is unbound: already the first
iteration of the loop of `SASA.convergence_test` raises
`NameError("SKL")`.  Here with `SASA(RMSProp(0.01, beta=0.9, jitter=0),
theta=2, rho=1/2)` under the default `W0=1000`, `n_iters = 3`, a
constant-gradient objective and a zero initial parameter (the window
block is skipped at `t = 0` because `W = 0 < W0`, so no reduction can
have happened). -/
theorem sasa_loop_raises_skl_name_error :
    sasaDefault.loopRun idQ zeroTppf zeroKl (1 / 100) 3 constGradObjective
      zeroInit = Except.error (PyErr.nameError "SKL") := by
  simp [SASA.loopRun, SASA.loopAux, SASA.step, SASA.stepReduction, SASA.window, sasaDefault]

/-- Claim C2.  Whatever concrete `StochasticGradientOptimizer` the SASA
controller wraps (RMSProp or AdaGrad) and whatever `n_iters`, objective
and initial parameter are supplied, `SASA.convergence_test` raises
`AttributeError("learning_rate")` at line 207, before the main loop can
execute a single iteration: the instances carry only `_learning_rate`. -/
theorem convergence_test_raises_attribute_error {d : ℕ} (o : SGO)
    (theta rho : ℚ) (W0 : ℤ) (t_check : ℕ) (delta eps : ℚ) (sq : ℚ → ℚ)
    (tppf : ℚ → ℤ → ℚ) (kl : Vec d → Vec d → ℚ) (n_iters : ℕ)
    (objective : Vec d → ℚ × Vec d) (init_param : Vec d) :
    SASA.convergence_test
        { sgo := o, theta := theta, rho := rho, W0 := W0, t_check := t_check,
          delta := delta, eps := eps } sq tppf kl n_iters objective init_param
      = Except.error (PyErr.attributeError "learning_rate") := by
  cases o <;> rfl

/-- Claim C3 (refuting evidence).  One run of
`StochasticGradientOptimizer.optimize` with `RMSProp(1, beta=0.9,
jitter=0)`, a constant-gradient-one objective, zero initial parameter
and `n_iters = 2`: the parameter at the end of iteration 0 was `-1`
(ghost snapshot), but after the run the 0-th entry of
`variational_param_history` reads `-2`, the final parameter — the entry
was changed by the later iteration, because the list holds a reference
to the array mutated in place by `-=`. -/
theorem optimize_history_entry_mutated_after_append :
    ((rmspropUnit.optimize idQ 2 constGradObjective zeroInit (1 / 5)).vph_snapshots.getD
        0 zeroInit) 0 = -1 ∧
    ((rmspropUnit.optimize idQ 2 constGradObjective zeroInit (1 / 5)).variational_param_history.getD
        0 zeroInit) 0 = -2 ∧
    ((rmspropUnit.optimize idQ 2 constGradObjective zeroInit (1 / 5)).variational_param_history.getD
        0 zeroInit) 0 ≠
      ((rmspropUnit.optimize idQ 2 constGradObjective zeroInit (1 / 5)).vph_snapshots.getD
        0 zeroInit) 0 := by
  have hs : ((rmspropUnit.optimize idQ 2 constGradObjective zeroInit (1 / 5)).vph_snapshots.getD
      0 zeroInit) 0 = -1 := by
    simp [SGO.optimize, SGO.optimizeLoop, SGO.optimizeStep, SGO.descent_direction,
      SGO._learning_rate, rmspropUnit, constGradObjective, zeroInit, idQ, pySliceLast,
      smoothing_window]
  have hh : ((rmspropUnit.optimize idQ 2 constGradObjective zeroInit (1 / 5)).variational_param_history.getD
      0 zeroInit) 0 = -2 := by
    simp [SGO.optimize, SGO.optimizeLoop, SGO.optimizeStep, SGO.descent_direction,
      SGO._learning_rate, rmspropUnit, constGradObjective, zeroInit, idQ, pySliceLast,
      smoothing_window]
    norm_num
  refine ⟨hs, hh, ?_⟩
  rw [hs, hh]
  norm_num

/-- Claim C4 (refuting evidence).  Same run as C3 with
`smoothed_prop = 1`, so `floor(n_iters * smoothed_prop) = 2`: the code
returns `smoothed_opt_param = -2` (every history row aliases the final
parameter array), while the arithmetic mean of the last 2 parameter
snapshots actually recorded during the run, `-1` and `-2`, is `-3/2`. -/
theorem optimize_smoothed_param_not_snapshot_mean :
    (rmspropUnit.optimize idQ 2 constGradObjective zeroInit 1).smoothed_opt_param 0 = -2 ∧
    vecMean ((rmspropUnit.optimize idQ 2 constGradObjective zeroInit 1).vph_snapshots.drop
        ((rmspropUnit.optimize idQ 2 constGradObjective zeroInit 1).vph_snapshots.length -
          smoothing_window 2 1)) 0 = -(3 / 2) ∧
    (rmspropUnit.optimize idQ 2 constGradObjective zeroInit 1).smoothed_opt_param 0 ≠
      vecMean ((rmspropUnit.optimize idQ 2 constGradObjective zeroInit 1).vph_snapshots.drop
        ((rmspropUnit.optimize idQ 2 constGradObjective zeroInit 1).vph_snapshots.length -
          smoothing_window 2 1)) 0 := by
  have h1 : (rmspropUnit.optimize idQ 2 constGradObjective zeroInit 1).smoothed_opt_param 0
      = -2 := by
    simp only [SGO.optimize, SGO.optimizeLoop, SGO.optimizeStep, SGO.descent_direction,
      SGO._learning_rate, rmspropUnit, constGradObjective, zeroInit, idQ, pySliceLast,
      smoothing_window, vecMean, listMean]
    norm_num
  have h2 : vecMean ((rmspropUnit.optimize idQ 2 constGradObjective zeroInit 1).vph_snapshots.drop
      ((rmspropUnit.optimize idQ 2 constGradObjective zeroInit 1).vph_snapshots.length -
        smoothing_window 2 1)) 0 = -(3 / 2) := by
    simp [SGO.optimize, SGO.optimizeLoop, SGO.optimizeStep, SGO.descent_direction,
      SGO._learning_rate, rmspropUnit, constGradObjective, zeroInit, idQ, pySliceLast,
      smoothing_window, vecMean, listMean]
    norm_num
  refine ⟨h1, h2, ?_⟩
  rw [h1, h2]
  norm_num

/-- Claim C9.  `SASA.__init__` raises `ValueError` exactly when the
supplied `sgo` is not a `StochasticGradientOptimizer`; on every concrete
optimizer instance (RMSProp or AdaGrad) and any hyperparameters it
succeeds and returns the configured controller. -/
theorem sasa_init_valueerror_iff_non_sgo (theta rho : ℚ) (W0 : ℤ)
    (t_check : ℕ) (delta eps : ℚ) :
    SASA.init SGOArg.nonSGO theta rho W0 t_check delta eps =
      Except.error
        (PyErr.valueError "sgo must be a subclass of StochasticGradientOptimizer") ∧
    (∀ o : SGO, SASA.init (SGOArg.sgoVal o) theta rho W0 t_check delta eps =
      Except.ok { sgo := o, theta := theta, rho := rho, W0 := W0,
                  t_check := t_check, delta := delta, eps := eps }) ∧
    (∀ a : SGOArg,
      (∃ e, SASA.init a theta rho W0 t_check delta eps = Except.error e) ↔
        a = SGOArg.nonSGO) := by
  refine ⟨rfl, fun o => rfl, fun a => ?_⟩
  cases a <;> simp [SASA.init]

/-- Claim C10 (refuting evidence).  A degenerate window `W = 1` gives
`b = floor(sqrt(1)) = 1`, yet `SASA.convergence_check` is neither
rejected nor deferred: it evaluates the batch-mean variance with the
divisor `b - 1 = 0` (numpy emits `inf`, the statistic becomes `nan`,
and the `nan` comparisons are false; in the `ℚ` model division by zero
yields `0`, with the same outcome) and performs the test, returning
`False`. -/
theorem convergence_check_degenerate_window_performs_test :
    convergence_check idQ zeroTppf (1 / 20) 1 [1 / 2] = Except.ok false := by
  simp [convergence_check, idQ, zeroTppf, pySliceLast, listMean]

/-- Claim C7.  For every gradient and every accumulator state (the
uninitialized first-call state included), `RMSProp.descent_direction`
returns the accumulator `beta*acc + (1-beta)*grad^2` and
`AdaGrad.descent_direction` the accumulator `acc + grad^2`, with `acc`
taken as `grad^2` on the first call, and both return the direction
`grad / sqrt(acc' + jitter)` element-wise. -/
theorem descent_direction_matches_spec_formulas {d : ℕ} (sq : ℚ → ℚ)
    (lr beta jitter lr2 jitter2 : ℚ) (grad : Vec d) (acc : Option (Vec d))
    (i : Fin d) :
    ((SGO.rmsprop lr beta jitter).descent_direction sq grad acc).2 i =
      beta * specAcc grad acc i + (1 - beta) * (grad i) ^ 2 ∧
    ((SGO.rmsprop lr beta jitter).descent_direction sq grad acc).1 i =
      grad i /
        sq (((SGO.rmsprop lr beta jitter).descent_direction sq grad acc).2 i + jitter) ∧
    ((SGO.adagrad lr2 jitter2).descent_direction sq grad acc).2 i =
      specAcc grad acc i + (grad i) ^ 2 ∧
    ((SGO.adagrad lr2 jitter2).descent_direction sq grad acc).1 i =
      grad i /
        sq (((SGO.adagrad lr2 jitter2).descent_direction sq grad acc).2 i + jitter2) := by
  cases acc <;>
    refine ⟨?_, ?_, ?_, ?_⟩ <;>
      simp [SGO.descent_direction, specAcc, mul_comm, add_comm]

/-- Claim C5.  Under the claim's hypotheses — `b = floor(sqrt(W))`
exceeds 1 and `Delta_history` holds at least `m*b` values — the
`SASA.convergence_check` computation returns `True` exactly when the
batch-means Student-t interval of the specification strictly contains
zero, and `False` exactly otherwise (in particular it raises nothing). -/
theorem convergence_check_eq_batch_means_spec (sq : ℚ → ℚ)
    (tppf : ℚ → ℤ → ℚ) (delta : ℚ) (W : ℤ) (Delta_history : List ℚ)
    (hb : 1 < Nat.sqrt W.toNat)
    (hlen : Nat.sqrt W.toNat * Nat.sqrt W.toNat ≤ Delta_history.length) :
    (convergence_check sq tppf delta W Delta_history = Except.ok true ↔
      stationaritySpec sq tppf delta W Delta_history) ∧
    (convergence_check sq tppf delta W Delta_history = Except.ok false ↔
      ¬ stationaritySpec sq tppf delta W Delta_history) := by
  have hw0 : Nat.sqrt W.toNat * Nat.sqrt W.toNat ≠ 0 := by
    have : 0 < Nat.sqrt W.toNat := lt_trans one_pos hb
    positivity
  have hwin : pySliceLast Delta_history (Nat.sqrt W.toNat * Nat.sqrt W.toNat) =
      Delta_history.drop (Delta_history.length - Nat.sqrt W.toNat * Nat.sqrt W.toNat) := by
    simp [pySliceLast, hw0]
  have hlen2 : (Delta_history.drop
      (Delta_history.length - Nat.sqrt W.toNat * Nat.sqrt W.toNat)).length =
      Nat.sqrt W.toNat * Nat.sqrt W.toNat := by
    simp [List.length_drop, Nat.sub_sub_self hlen]
  simp only [convergence_check, stationaritySpec, hwin, hlen2, if_true, eq_self_iff_true,
    List.map_map, Function.comp_def]
  constructor <;> split <;> simp_all

/-- Witness for C5: the characterization instantiated at `W = 4`
(`b = 2`) with four recorded Delta values, discharging both
hypotheses. -/
theorem convergence_check_eq_batch_means_spec_witness :
    (convergence_check idQ zeroTppf (1 / 20) 4 [1, 2, 3, 4] = Except.ok true ↔
      stationaritySpec idQ zeroTppf (1 / 20) 4 [1, 2, 3, 4]) ∧
    (convergence_check idQ zeroTppf (1 / 20) 4 [1, 2, 3, 4] = Except.ok false ↔
      ¬ stationaritySpec idQ zeroTppf (1 / 20) 4 [1, 2, 3, 4]) :=
  convergence_check_eq_batch_means_spec idQ zeroTppf (1 / 20) 4 [1, 2, 3, 4]
    (by
      have h4 : ((4 : ℤ)).toNat = 2 * 2 := by decide
      rw [h4, Nat.sqrt_eq]
      decide)
    (by
      have h4 : ((4 : ℤ)).toNat = 2 * 2 := by decide
      rw [h4, Nat.sqrt_eq]
      decide)

/-- Helper for C6: in any non-raising outcome of the reduction block,
either the returned quadruple keeps the current learning rate, or the
window condition `W >= W0` held, `t` was a multiple of `t_check`, the
stationarity test returned `True`, and the returned rate is exactly
`rho` times the current one. -/
theorem stepReduction_learning_rate {d : ℕ} (c : SASA) (sq : ℚ → ℚ)
    (tppf : ℚ → ℤ → ℚ) (kl : Vec d → Vec d → ℚ)
    (objective : Vec d → ℚ × Vec d) (t : ℕ) (s : SASAState d)
    (lr : ℚ) (vpm : Vec d) (t0N : ℕ) (sklOpt : Option ℚ)
    (h : c.stepReduction sq tppf kl objective t s =
      Except.ok (lr, vpm, t0N, sklOpt)) :
    lr = s.learning_rate ∨
      (c.W0 ≤ c.window t s.t0 ∧ t % c.t_check = 0 ∧
        convergence_check sq tppf c.delta (c.window t s.t0)
          (c.stepDeltaHist sq objective s) = Except.ok true ∧
        lr = c.rho * s.learning_rate) := by
  simp only [SASA.stepReduction] at h
  split at h
  case isTrue hW =>
    split at h
    case isTrue htc => simp at h
    case isFalse htc =>
      split at h
      case isTrue hmod =>
        generalize hcc : convergence_check sq tppf c.delta (c.window t s.t0)
          (c.stepDeltaHist sq objective s) = res at h
        cases res with
        | error e => simp at h
        | ok convg =>
          cases convg with
          | false =>
            simp at h
            exact Or.inl h.1.symm
          | true =>
            simp at h
            exact Or.inr ⟨hW, hmod, rfl, h.1.symm⟩
      case isFalse hmod =>
        simp at h
        exact Or.inl h.1.symm
  case isFalse hW =>
    simp at h
    exact Or.inl h.1.symm

/-- Claim C6.  In every iteration of `SASA.convergence_test` that does
not raise, the learning rate either stays unchanged or — only when
`W >= W0` holds, `t` is a multiple of `t_check`, and the stationarity
test returns `True` — becomes exactly `rho` times the previous rate.
In particular no reduction can happen before `W >= W0` is first
satisfied. -/
theorem learning_rate_changes_only_on_reduction_event {d : ℕ} (c : SASA)
    (sq : ℚ → ℚ) (tppf : ℚ → ℤ → ℚ) (kl : Vec d → Vec d → ℚ)
    (objective : Vec d → ℚ × Vec d) (t : ℕ) (s : SASAState d)
    (out : StepOut d)
    (h : c.step sq tppf kl objective t s = Except.ok out) :
    out.state.learning_rate = s.learning_rate ∨
      (c.W0 ≤ c.window t s.t0 ∧ t % c.t_check = 0 ∧
        convergence_check sq tppf c.delta (c.window t s.t0)
          (c.stepDeltaHist sq objective s) = Except.ok true ∧
        out.state.learning_rate = c.rho * s.learning_rate) := by
  simp only [SASA.step] at h
  generalize hr : c.stepReduction sq tppf kl objective t s = res at h
  cases res with
  | error e => simp at h
  | ok q =>
    obtain ⟨lr, vpm, t0N, sklOpt⟩ := q
    have hlr := stepReduction_learning_rate c sq tppf kl objective t s lr vpm
      t0N sklOpt hr
    cases sklOpt with
    | none => simp at h
    | some skl =>
      have hstate : out.state.learning_rate = lr := by
        by_cases hstop : skl / c.rho < c.eps
        · simp only [if_pos hstop] at h
          rw [← Except.ok.inj h]
          rfl
        · simp only [if_neg hstop] at h
          rw [← Except.ok.inj h]
          rfl
      rcases hlr with h1 | h2
      · exact Or.inl (hstate.trans h1)
      · exact Or.inr ⟨h2.1, h2.2.1, h2.2.2.1, hstate.trans h2.2.2.2⟩

/-- Witness for C6: one successful concrete iteration (the state already
carries an assigned `SKL`, the window condition does not yet hold, and
the learning rate is unchanged). -/
theorem learning_rate_changes_only_on_reduction_event_witness :
    (StepOut.next c6StateAfter).state.learning_rate = c6State.learning_rate ∨
      (sasaDefault.W0 ≤ sasaDefault.window 0 c6State.t0 ∧
        0 % sasaDefault.t_check = 0 ∧
        convergence_check idQ zeroTppf sasaDefault.delta
          (sasaDefault.window 0 c6State.t0)
          (sasaDefault.stepDeltaHist idQ constGradObjective c6State) =
            Except.ok true ∧
        (StepOut.next c6StateAfter).state.learning_rate =
          sasaDefault.rho * c6State.learning_rate) :=
  learning_rate_changes_only_on_reduction_event sasaDefault idQ zeroTppf zeroKl
    constGradObjective 0 c6State (StepOut.next c6StateAfter) (by
      simp [SASA.step, SASA.stepReduction, SASA.window, SASA.stepDeltaHist,
        SASA.stepDelta, SASA.stepParam, SASA.stepDescent, SGO.descent_direction,
        sasaDefault, c6State, c6StateAfter, constGradObjective, zeroInit, idQ,
        funext_iff, Fin.forall_fin_one]
      norm_num
      funext i
      simp [SASA.stepParam, SASA.stepDescent, SGO.descent_direction, sasaDefault,
        c6State, constGradObjective, zeroInit, idQ])

/-- Helper for C8: along a sequence of zero gradients, RMSProp's trace —
started from the uninitialized state or from any zero accumulator —
consists solely of zero directions and zero accumulators. -/
theorem rmsprop_zero_trace {d : ℕ} (sq : ℚ → ℚ) (lr beta jitter : ℚ) :
    ∀ (gs : List (Vec d)) (acc : Option (Vec d)),
      (∀ g ∈ gs, ∀ i, g i = 0) → (∀ a ∈ acc, ∀ i, a i = 0) →
      ∀ p ∈ (SGO.rmsprop lr beta jitter).callTrace sq gs acc,
        (∀ i, p.1 i = 0) ∧ (∀ i, p.2 i = 0) := by
  intro gs
  induction gs with
  | nil => intro acc _ _ p hp; simp [SGO.callTrace] at hp
  | cons g gs ih =>
    intro acc hz hacc p hp
    have hg : ∀ i, g i = 0 := hz g (List.mem_cons_self g gs)
    have hacc1 : ∀ i,
        ((SGO.rmsprop lr beta jitter).descent_direction sq g acc).2 i = 0 := by
      intro i
      cases acc with
      | none => simp [SGO.descent_direction, hg]
      | some a =>
        have := hacc a rfl
        simp [SGO.descent_direction, hg, this]
    rw [SGO.callTrace] at hp
    rcases List.mem_cons.mp hp with hph | hpt
    · subst hph
      refine ⟨fun i => ?_, hacc1⟩
      simp [SGO.descent_direction, hg]
    · exact ih (some ((SGO.rmsprop lr beta jitter).descent_direction sq g acc).2)
        (fun g' hg' => hz g' (List.mem_cons_of_mem g hg'))
        (fun a ha => by rw [Option.mem_some_iff] at ha; rw [← ha]; exact hacc1)
        p hpt

/-- Helper for C8: along a sequence of zero gradients every direction in
AdaGrad's trace is zero, from any starting accumulator. -/
theorem adagrad_zero_directions {d : ℕ} (sq : ℚ → ℚ) (lr jitter : ℚ) :
    ∀ (gs : List (Vec d)) (acc : Option (Vec d)),
      (∀ g ∈ gs, ∀ i, g i = 0) →
      ∀ p ∈ (SGO.adagrad lr jitter).callTrace sq gs acc, ∀ i, p.1 i = 0 := by
  intro gs
  induction gs with
  | nil => intro acc _ p hp; simp [SGO.callTrace] at hp
  | cons g gs ih =>
    intro acc hz p hp
    have hg : ∀ i, g i = 0 := hz g (List.mem_cons_self g gs)
    rw [SGO.callTrace] at hp
    rcases List.mem_cons.mp hp with hph | hpt
    · subst hph
      intro i
      simp [SGO.descent_direction, hg]
    · exact ih _ (fun g' hg' => hz g' (List.mem_cons_of_mem g hg')) p hpt

/-- Helper for C8: along an arbitrary gradient sequence, the successive
accumulators returned by AdaGrad are element-wise non-decreasing. -/
theorem adagrad_acc_chain {d : ℕ} (sq : ℚ → ℚ) (lr jitter : ℚ) :
    ∀ (gs : List (Vec d)) (acc : Option (Vec d)),
      List.Chain' (fun p q => ∀ i, p.2 i ≤ q.2 i)
        ((SGO.adagrad lr jitter).callTrace sq gs acc) := by
  intro gs
  induction gs with
  | nil => intro acc; simp [SGO.callTrace]
  | cons g gs ih =>
    intro acc
    rw [SGO.callTrace]
    refine List.chain'_cons'.mpr ⟨?_, ih _⟩
    intro q hq
    cases gs with
    | nil => simp [SGO.callTrace] at hq
    | cons g' gs' =>
      rw [SGO.callTrace] at hq
      simp only [List.head?_cons, Option.mem_some_iff] at hq
      subst hq
      intro i
      simp only [SGO.descent_direction]
      exact le_add_of_nonneg_right (sq_nonneg _)

/-- Claim C8.  Threading the accumulator through successive calls:
on an all-zero gradient sequence both RMSProp and AdaGrad return the
zero direction on every call and RMSProp's accumulator stays zero,
while on an arbitrary gradient sequence AdaGrad's accumulator is
element-wise non-decreasing from call to call. -/
theorem descent_direction_zero_gradient_properties {d : ℕ} (sq : ℚ → ℚ)
    (lr beta jitter lr2 jitter2 : ℚ) (gs gs2 : List (Vec d))
    (hz : ∀ g ∈ gs, ∀ i, g i = 0) :
    (∀ p ∈ (SGO.rmsprop lr beta jitter).callTrace sq gs none, ∀ i, p.1 i = 0) ∧
    (∀ p ∈ (SGO.adagrad lr2 jitter2).callTrace sq gs none, ∀ i, p.1 i = 0) ∧
    (∀ p ∈ (SGO.rmsprop lr beta jitter).callTrace sq gs none, ∀ i, p.2 i = 0) ∧
    List.Chain' (fun p q => ∀ i, p.2 i ≤ q.2 i)
      ((SGO.adagrad lr2 jitter2).callTrace sq gs2 none) := by
  refine ⟨?_, ?_, ?_, adagrad_acc_chain sq lr2 jitter2 gs2 none⟩
  · intro p hp
    exact (rmsprop_zero_trace sq lr beta jitter gs none hz (by simp) p hp).1
  · exact adagrad_zero_directions sq lr2 jitter2 gs none hz
  · intro p hp
    exact (rmsprop_zero_trace sq lr beta jitter gs none hz (by simp) p hp).2

/-- Witness for C8 at a concrete one-call zero-gradient sequence (and a
concrete nonzero sequence for the monotonicity part). -/
theorem descent_direction_zero_gradient_properties_witness :
    (∀ p ∈ (SGO.rmsprop 1 (9 / 10) 0).callTrace idQ
        [(fun _ => 0 : Vec 1)] none, ∀ i, p.1 i = 0) ∧
    (∀ p ∈ (SGO.adagrad 1 0).callTrace idQ
        [(fun _ => 0 : Vec 1)] none, ∀ i, p.1 i = 0) ∧
    (∀ p ∈ (SGO.rmsprop 1 (9 / 10) 0).callTrace idQ
        [(fun _ => 0 : Vec 1)] none, ∀ i, p.2 i = 0) ∧
    List.Chain' (fun p q => ∀ i, p.2 i ≤ q.2 i)
      ((SGO.adagrad 1 0).callTrace idQ
        [(fun _ => 1 : Vec 1), (fun _ => 1 : Vec 1)] none) :=
  descent_direction_zero_gradient_properties idQ 1 (9 / 10) 0 1 0
    [(fun _ => 0 : Vec 1)] [(fun _ => 1 : Vec 1), (fun _ => 1 : Vec 1)]
    (by
      intro g hg i
      rw [List.mem_singleton] at hg
      rw [hg])

end Viabel
